import Mathlib

/-!
Verification of the customer-support LLM pipeline (`henry-wk1`).

Strings are modelled as `List Char` (JS strings; `String.prototype.trim`,
`substring`, `slice` and regex tests are modelled character-wise).
Numbers that the code manipulates exactly (token counts, prices) are
modelled as `Nat`/`ℚ`.
-/

namespace SupportHelper

/-- Risk levels, from `src/constants.ts` (`RiskLevel.LOW/MEDIUM/HIGH`). -/
inductive RiskLevel where
  | low
  | medium
  | high
deriving DecidableEq

/-- `SafetyCheck` record from `src/types.ts`. -/
structure SafetyCheck where
  passed : Bool
  risk_level : RiskLevel
  reason : Option (List Char)
deriving DecidableEq

/-- The whitespace class used by JS `String.prototype.trim` and by `\s`
in regular expressions: tab, LF, VT, FF, CR, space, NBSP, and the
Unicode space separators plus LS, PS, NNBSP, MMSP, ideographic space
and the BOM. -/
def isJsWhitespace (c : Char) : Bool :=
  c.toNat ∈ [9, 10, 11, 12, 13, 32, 0xa0, 0x1680,
    0x2000, 0x2001, 0x2002, 0x2003, 0x2004, 0x2005, 0x2006, 0x2007,
    0x2008, 0x2009, 0x200a, 0x2028, 0x2029, 0x202f, 0x205f, 0x3000, 0xfeff]

/-- Leading-whitespace strip, first half of JS `trim()`. -/
def trimStart (l : List Char) : List Char :=
  l.dropWhile isJsWhitespace

/-- Trailing-whitespace strip, second half of JS `trim()`. -/
def trimEnd (l : List Char) : List Char :=
  (l.reverse.dropWhile isJsWhitespace).reverse

/-- JS `String.prototype.trim`. -/
def jsTrim (l : List Char) : List Char :=
  trimEnd (trimStart l)

/-- `MAX_QUERY_LENGTH` from `src/safety/prompt.ts`. -/
def MAX_QUERY_LENGTH : Nat := 5000

/-- `MIN_QUERY_LENGTH` from `src/safety/prompt.ts`. -/
def MIN_QUERY_LENGTH : Nat := 3

/-- The control characters stripped by `sanitizeQuery`'s regex
`[\x00-\x08\x0B-\x0C\x0E-\x1F\x7F]`. -/
def isStrippedControl (c : Char) : Bool :=
  c.toNat ≤ 8 ∨ (11 ≤ c.toNat ∧ c.toNat ≤ 12) ∨
    (14 ≤ c.toNat ∧ c.toNat ≤ 31) ∨ c.toNat = 127

/-- The `.replace(/[\x00-\x08\x0B-\x0C\x0E-\x1F\x7F]/g, '')` step of
`sanitizeQuery`. -/
def removeControlChars (l : List Char) : List Char :=
  l.filter (fun c => !isStrippedControl c)

/-- `sanitizeQuery` from `src/safety/prompt.ts`: strip the control
characters, trim, then `.slice(0, MAX_QUERY_LENGTH)`. -/
def sanitizeQuery (query : List Char) : List Char :=
  (jsTrim (removeControlChars query)).take MAX_QUERY_LENGTH

/-- JS `toLowerCase` restricted to ASCII letters (all characters the
classifier's keyword lists contain are ASCII). -/
def toLowerList (l : List Char) : List Char :=
  l.map Char.toLower

/-- Line terminators, which `.` in a JS regex (without the `s` flag)
does not match. -/
def isLineTerminator (c : Char) : Bool :=
  c.toNat ∈ [10, 13, 0x2028, 0x2029]

/-- Does the pattern `x.?y` match at the head of `t`? Either `x ++ y`
is a prefix of `t`, or `x`, one non-line-terminator character, then `y`. -/
def dotOptMatchAt (x y t : List Char) : Bool :=
  (x ++ y).isPrefixOf t ||
    (x.isPrefixOf t &&
      match t.drop x.length with
      | [] => false
      | c :: r => !isLineTerminator c && y.isPrefixOf r)

/-- `RegExp.prototype.test` for a pattern of the shape `x.?y` (the only
shape occurring in `SUSPICIOUS_PATTERNS`): some suffix of `s` matches at
its head.  Case-insensitivity is handled by the caller lower-casing. -/
def dotOptTest (x y s : List Char) : Bool :=
  s.tails.any (dotOptMatchAt x y)

/-- JS `String.prototype.includes`: `needle` occurs as a contiguous
substring of `hay`. -/
def listIncludes (needle hay : List Char) : Bool :=
  hay.tails.any (fun t => needle.isPrefixOf t)

/-- `SUSPICIOUS_PATTERNS` from `src/safety/prompt.ts`, each regex
`/a.?b/i` represented as the pair of its literal halves (a plain
substring pattern has an empty second half). -/
def SUSPICIOUS_PATTERNS : List (List Char × List Char) :=
  [("prompt".toList, "injection".toList),
   ("ignore".toList, "previous".toList),
   ("forget".toList, "instructions".toList),
   ("system".toList, "prompt".toList),
   ("new".toList, "instructions".toList),
   ("override".toList, [] ),
   ("jailbreak".toList, [] ),
   ("hack".toList, [] ),
   ("exploit".toList, [] )]

/-- `HIGH_RISK_KEYWORDS` from `src/safety/prompt.ts`. -/
def HIGH_RISK_KEYWORDS : List (List Char) :=
  ["ignore all previous".toList, "forget everything".toList,
   "new instructions".toList, "system override".toList,
   "developer mode".toList]

/-- `MEDIUM_RISK_KEYWORDS` from `src/safety/prompt.ts`. -/
def MEDIUM_RISK_KEYWORDS : List (List Char) :=
  ["pretend".toList, "act as".toList, "roleplay".toList, "simulate".toList]

/-- The special characters counted by the encoding-attack check, by
code point: angle brackets, curly braces, square brackets, backslash,
slash, pipe, backquote, tilde, bang, at-sign, hash, dollar, percent,
caret, ampersand, star, plus, equals. -/
def isSpecialChar (c : Char) : Bool :=
  c.toNat ∈ [60, 62, 123, 125, 91, 93, 92, 47, 124, 96, 126,
    33, 64, 35, 36, 37, 94, 38, 42, 43, 61]

/-- Number of special characters in the query (the `match(...)?.length`
count). -/
def specialCharCount (l : List Char) : Nat :=
  (l.filter isSpecialChar).length

/-- `checkInputSafety` from `src/safety/prompt.ts`, checks in source
order: short/empty, over-length, suspicious regexes, high-risk keywords,
medium-risk keywords, special-character ratio, then the pass verdict.
The float comparison `count / length > 0.3` is modelled exactly as
`10 * count > 3 * length` (for lengths ≤ 5000 the two are equivalent). -/
def checkInputSafety (query : List Char) : SafetyCheck :=
  if query.isEmpty || (jsTrim query).length < MIN_QUERY_LENGTH then
    ⟨false, RiskLevel.low, some "Query too short or empty".toList⟩
  else if MAX_QUERY_LENGTH < query.length then
    ⟨false, RiskLevel.high, some "Query exceeds maximum length".toList⟩
  else if SUSPICIOUS_PATTERNS.any (fun p => dotOptTest p.1 p.2 (toLowerList query)) then
    ⟨false, RiskLevel.high, some "Detected prompt injection pattern".toList⟩
  else
    match HIGH_RISK_KEYWORDS.find? (fun k => listIncludes k (toLowerList query)) with
    | some kw =>
        ⟨false, RiskLevel.high, some ("Contains high-risk keyword: ".toList ++ kw)⟩
    | none =>
      match MEDIUM_RISK_KEYWORDS.find? (fun k => listIncludes k (toLowerList query)) with
      | some kw =>
          ⟨true, RiskLevel.medium, some ("Contains medium-risk keyword: ".toList ++ kw)⟩
      | none =>
        if 3 * query.length < 10 * specialCharCount query then
          ⟨true, RiskLevel.medium, some "High ratio of special characters detected".toList⟩
        else
          ⟨true, RiskLevel.low, some "No safety concerns detected".toList⟩

example : checkInputSafety "How do I reset my password?".toList =
    ⟨true, RiskLevel.low, some "No safety concerns detected".toList⟩ := by decide

example : checkInputSafety "Hi".toList =
    ⟨false, RiskLevel.low, some "Query too short or empty".toList⟩ := by decide

example : checkInputSafety "How do I hack your account?".toList =
    ⟨false, RiskLevel.high, some "Detected prompt injection pattern".toList⟩ := by decide

example : checkInputSafety "Can you pretend to be a customer service agent?".toList =
    ⟨true, RiskLevel.medium,
      some ("Contains medium-risk keyword: ".toList ++ "pretend".toList)⟩ := by decide

example : sanitizeQuery "   Test query   ".toList = "Test query".toList := by decide

/-- `SupportResponse` record from `src/types.ts` (`confidence` is a JS
number, modelled exactly as a rational). -/
structure SupportResponse where
  answer : List Char
  confidence : ℚ
  actions : List (List Char)
  category : List Char
  tags : List (List Char)
deriving DecidableEq

/-- `QueryMetrics` record from `src/types.ts`.  `timestamp` and
`latency_ms` come from the wall clock; the orchestrator receives them
as parameters. -/
structure QueryMetrics where
  timestamp : List Char
  model : List Char
  query : List Char
  latency_ms : Nat
  tokens_prompt : Nat
  tokens_completion : Nat
  total_tokens : Nat
  estimated_cost_usd : ℚ
deriving DecidableEq

/-- `QueryResult` record from `src/types.ts`. -/
structure QueryResult where
  response : SupportResponse
  metrics : QueryMetrics
  safety : SafetyCheck
deriving DecidableEq

/-- Observable outcome of one `processQuery` run: the returned
`QueryResult`, whether the external model was ever invoked, and the
sanitized text the success branch reports as the user content
(`console.log('Question:', sanitizedQuery)`), `none` when that line is
never reached. -/
structure ProcOutcome where
  result : QueryResult
  calledModel : Bool
  loggedQuestion : Option (List Char)
deriving DecidableEq

/-- `processQuery` from `src/run_query.ts` (the current version, lines
119–205).  Effects are passed in explicitly: `ts` is
`new Date().toISOString()`, `lat` is `Date.now() - startTime`, and
`stage` is the outcome of the fallible part of the `try` block
(`loadPromptTemplate` + `createOpenAIClient`), carrying the JS error
message on failure.  Note the success branch is a stub: it performs no
model request (`calledModel := false`), and answers a hard-coded
response with zeroed usage and the raw (unsanitized, untruncated)
`question` in `metrics.query`. -/
def processQuery (question model : List Char) (ts : List Char) (lat : Nat)
    (stage : Except (List Char) Unit) : ProcOutcome :=
  let safetyCheck := checkInputSafety question
  if !safetyCheck.passed && safetyCheck.risk_level == RiskLevel.high then
    { result :=
        { response :=
            { answer := "I cannot process this request due to security concerns.".toList,
              confidence := 1,
              actions := ["Please rephrase your question".toList,
                          "Contact support if you need assistance".toList],
              category := "other".toList,
              tags := ["safety".toList, "moderation".toList] },
          metrics :=
            { timestamp := ts,
              query := question.take 100,
              tokens_prompt := 0,
              tokens_completion := 0,
              total_tokens := 0,
              latency_ms := lat,
              estimated_cost_usd := 0,
              model := "safety-filter".toList },
          safety := safetyCheck },
      calledModel := false,
      loggedQuestion := none }
  else
    let sanitizedQuery := sanitizeQuery question
    match stage with
    | Except.ok _ =>
      { result :=
          { metrics :=
              { model := model,
                timestamp := ts,
                query := question,
                tokens_prompt := 0,
                tokens_completion := 0,
                total_tokens := 0,
                latency_ms := 0,
                estimated_cost_usd := 0 },
            safety :=
              { passed := true, risk_level := RiskLevel.low, reason := none },
            response :=
              { answer := "Hello, world!".toList,
                confidence := 0.95,
                actions := ["action1".toList, "action2".toList],
                category := "category".toList,
                tags := ["tag1".toList, "tag2".toList] } },
        calledModel := false,
        loggedQuestion := some sanitizedQuery }
    | Except.error msg =>
      { result :=
          { response :=
              { answer := "I encountered an error processing your question: ".toList ++ msg,
                confidence := 0,
                actions := ["Please try rephrasing your question".toList,
                            "Contact support if the issue persists".toList],
                category := "other".toList,
                tags := ["error".toList] },
            metrics :=
              { timestamp := ts,
                query := sanitizedQuery.take 200,
                tokens_prompt := 0,
                tokens_completion := 0,
                total_tokens := 0,
                latency_ms := lat,
                estimated_cost_usd := 0,
                model := "error".toList },
            safety := safetyCheck },
        calledModel := false,
        loggedQuestion := none }

/-- The static price table of `calculateCost` (`src/metrics.ts`), in
declaration order; per-million-token USD rates (prompt, completion). -/
def pricing : List (List Char × ℚ × ℚ) :=
  [("gpt-4".toList, 30, 60),
   ("gpt-4-turbo".toList, 10, 30),
   ("gpt-3.5-turbo".toList, 1/2, 3/2),
   ("claude-3-opus".toList, 15, 75),
   ("claude-3-sonnet".toList, 3, 15),
   ("claude-3-haiku".toList, 1/4, 5/4)]

/-- `calculateCost` from `src/metrics.ts`: first table key (declaration
order) that is a substring of `model`, falling back to the
`gpt-3.5-turbo` rates.  All arithmetic exact (the concrete rates and
token counts also compute exactly in IEEE doubles at the claims'
inputs). -/
def calculateCost (model : List Char) (promptTokens completionTokens : Nat) : ℚ :=
  match pricing.find? (fun e => listIncludes e.1 model) with
  | none =>
      (promptTokens : ℚ) / 1000000 * (1/2) + (completionTokens : ℚ) / 1000000 * (3/2)
  | some e =>
      (promptTokens : ℚ) / 1000000 * e.2.1 + (completionTokens : ℚ) / 1000000 * e.2.2

lemma pricing_find_gpt4 :
    pricing.find? (fun e => listIncludes e.1 "gpt-4".toList) =
      some ("gpt-4".toList, 30, 60) := by
  rw [pricing]
  exact List.find?_cons_of_pos _ (by decide)

lemma pricing_find_gpt4_turbo :
    pricing.find? (fun e => listIncludes e.1 "gpt-4-turbo".toList) =
      some ("gpt-4".toList, 30, 60) := by
  rw [pricing]
  exact List.find?_cons_of_pos _ (by decide)

lemma pricing_find_unknown :
    pricing.find? (fun e => listIncludes e.1 "unknown-model".toList) = none := by
  rw [pricing]
  rw [List.find?_cons_of_neg _ (by decide), List.find?_cons_of_neg _ (by decide),
    List.find?_cons_of_neg _ (by decide), List.find?_cons_of_neg _ (by decide),
    List.find?_cons_of_neg _ (by decide), List.find?_cons_of_neg _ (by decide)]
  rfl

example : calculateCost "gpt-4".toList 1000 500 = 3/50 := by
  rw [calculateCost, pricing_find_gpt4]
  norm_num

example : calculateCost "gpt-4-turbo".toList 1000 500 = 3/50 := by
  rw [calculateCost, pricing_find_gpt4_turbo]
  norm_num

example : calculateCost "unknown-model".toList 1000 500 = 1/800 := by
  rw [calculateCost, pricing_find_unknown]
  norm_num

/-- The backquote character (code point 96). -/
def backquote : Char := Char.ofNat 96

/-- Opening fence with language tag checked by
`cleaned.startsWith('```json')` in `parseJSONResponse`
(`src/safety/response.ts`). -/
def jsonFence : List Char := [backquote, backquote, backquote, 'j', 's', 'o', 'n']

/-- Bare triple-backtick fence. -/
def fence : List Char := [backquote, backquote, backquote]

example : jsonFence = "```json".toList := by decide
example : fence = "```".toList := by decide

/-- The `.replace(/\s*```$/, '')` step: when the text ends in a fence,
drop it together with the run of whitespace before it; otherwise the
regex does not match and the text is unchanged. -/
def stripTrailingFence (l : List Char) : List Char :=
  if fence.isSuffixOf l then trimEnd (l.take (l.length - 3)) else l

/-- `parseJSONResponse` from `src/safety/response.ts`.  `JSON.parse` is
a host builtin, passed in as `jsonParse`; a parse failure is re-thrown
with the `Failed to parse JSON response: ` prefix. -/
def parseJSONResponse
    (jsonParse : List Char → Except (List Char) SupportResponse)
    (text : List Char) : Except (List Char) SupportResponse :=
  let cleaned := jsTrim text
  let cleaned :=
    if jsonFence.isPrefixOf cleaned then
      stripTrailingFence (trimStart (cleaned.drop 7))
    else if fence.isPrefixOf cleaned then
      stripTrailingFence (trimStart (cleaned.drop 3))
    else cleaned
  match jsonParse cleaned with
  | Except.ok v => Except.ok v
  | Except.error e =>
      Except.error ("Failed to parse JSON response: ".toList ++ e)

/-- Wrapping a payload in a fenced code block whose opening fence
carries the `json` tag. -/
def wrapJsonFence (t : List Char) : List Char :=
  jsonFence ++ ['\n'] ++ t ++ ['\n'] ++ fence

/-- A JS runtime value as far as `validateResponse` can observe one:
`undefined`, `null`, a boolean, a (non-NaN) number, a string, or an
array (whose elements the validator never inspects). -/
inductive JsValue where
  | undef
  | null
  | boolean (b : Bool)
  | num (q : ℚ)
  | str (s : List Char)
  | arr (elems : List (List Char))
deriving DecidableEq

/-- JS truthiness of a `JsValue` (`!x` in the source tests for this). -/
def truthy : JsValue → Bool
  | JsValue.undef => false
  | JsValue.null => false
  | JsValue.boolean b => b
  | JsValue.num q => !(q == 0)
  | JsValue.str s => !s.isEmpty
  | JsValue.arr _ => true

/-- `typeof x === 'string'`. -/
def isJsString : JsValue → Bool
  | JsValue.str _ => true
  | _ => false

/-- `Array.isArray(x)`. -/
def isJsArray : JsValue → Bool
  | JsValue.arr _ => true
  | _ => false

/-- The test `typeof c !== 'number' || c < 0 || c > 1` on the
`confidence` field. -/
def confidenceInvalid : JsValue → Bool
  | JsValue.num q => decide (q < 0) || decide (1 < q)
  | _ => true

/-- A parsed candidate object as `validateResponse` receives it: the
five accessed properties, each possibly `undefined` or of the wrong
type. -/
structure Candidate where
  answer : JsValue
  confidence : JsValue
  actions : JsValue
  category : JsValue
  tags : JsValue
deriving DecidableEq

/-- `validateResponse` from `src/safety/response.ts`: five checks in
source order, throwing on the first violation; on success it returns
(void, with) the candidate unmodified. -/
def validateResponse (response : Candidate) : Except (List Char) Candidate :=
  if !truthy response.answer || !isJsString response.answer then
    Except.error "Missing or invalid answer field".toList
  else if confidenceInvalid response.confidence then
    Except.error "Confidence must be a number between 0 and 1".toList
  else if !isJsArray response.actions then
    Except.error "Actions must be an array".toList
  else if !truthy response.category || !isJsString response.category then
    Except.error "Missing or invalid category field".toList
  else if !isJsArray response.tags then
    Except.error "Tags must be an array".toList
  else Except.ok response

/-! Toolkit lemmas about the JS `trim` model. -/

lemma dropWhile_eq_self_of_head {α : Type} {p : α → Bool} {l : List α} {a : α}
    (h : l.head? = some a) (hp : p a = false) : l.dropWhile p = l := by
  cases l with
  | nil => rfl
  | cons b t =>
    simp only [List.head?_cons, Option.some.injEq] at h
    subst h
    exact List.dropWhile_cons_of_neg (by simp [hp])

lemma head?_dropWhile_eq_false {α : Type} {p : α → Bool} {l : List α} {a : α}
    (h : (l.dropWhile p).head? = some a) : p a = false := by
  have := List.head?_dropWhile_not p l
  rw [h] at this
  exact this

lemma trimStart_eq_self {l : List Char}
    (h : ∀ c, l.head? = some c → isJsWhitespace c = false) : trimStart l = l := by
  cases hl : l.head? with
  | none => rw [List.head?_eq_none_iff] at hl; subst hl; rfl
  | some c => exact dropWhile_eq_self_of_head hl (h c hl)

lemma trimEnd_eq_self {l : List Char}
    (h : ∀ c, l.getLast? = some c → isJsWhitespace c = false) : trimEnd l = l := by
  rw [trimEnd]
  cases hl : l.reverse.head? with
  | none =>
    rw [List.head?_eq_none_iff] at hl
    rw [hl]
    simp only [List.dropWhile_nil, List.reverse_nil]
    rw [← List.reverse_eq_nil_iff.mp hl]
  | some c =>
    have hc : l.getLast? = some c := by rw [List.getLast?_eq_head?_reverse]; exact hl
    rw [dropWhile_eq_self_of_head hl (h c hc), List.reverse_reverse]

lemma jsTrim_eq_self {l : List Char}
    (h1 : ∀ c, l.head? = some c → isJsWhitespace c = false)
    (h2 : ∀ c, l.getLast? = some c → isJsWhitespace c = false) : jsTrim l = l := by
  rw [jsTrim, trimStart_eq_self h1, trimEnd_eq_self h2]

lemma trimEnd_append_exists (l : List Char) :
    ∃ r, l = trimEnd l ++ r := by
  refine ⟨(l.reverse.takeWhile isJsWhitespace).reverse, ?_⟩
  rw [trimEnd]
  conv_lhs => rw [← List.reverse_reverse l,
    ← List.takeWhile_append_dropWhile (p := isJsWhitespace) (l := l.reverse)]
  rw [List.reverse_append]

lemma head?_trimEnd {l : List Char} {c : Char}
    (h : (trimEnd l).head? = some c) : l.head? = some c := by
  obtain ⟨r, hr⟩ := trimEnd_append_exists l
  rw [hr, List.head?_append, h]
  rfl

lemma getLast?_trimEnd_eq_false {l : List Char} {c : Char}
    (h : (trimEnd l).getLast? = some c) : isJsWhitespace c = false := by
  rw [trimEnd, List.getLast?_eq_head?_reverse, List.reverse_reverse] at h
  exact head?_dropWhile_eq_false h

lemma head?_jsTrim_eq_false {l : List Char} {c : Char}
    (h : (jsTrim l).head? = some c) : isJsWhitespace c = false := by
  rw [jsTrim] at h
  exact head?_dropWhile_eq_false (head?_trimEnd h)

lemma getLast?_jsTrim_eq_false {l : List Char} {c : Char}
    (h : (jsTrim l).getLast? = some c) : isJsWhitespace c = false := by
  rw [jsTrim] at h
  exact getLast?_trimEnd_eq_false h

lemma jsTrim_idem (l : List Char) : jsTrim (jsTrim l) = jsTrim l := by
  apply jsTrim_eq_self
  · intro c hc
    exact head?_jsTrim_eq_false hc
  · intro c hc
    exact getLast?_jsTrim_eq_false hc

lemma mem_of_mem_trimStart {l : List Char} {a : Char}
    (h : a ∈ trimStart l) : a ∈ l := by
  have hd : l = l.takeWhile isJsWhitespace ++ l.dropWhile isJsWhitespace :=
    (List.takeWhile_append_dropWhile (p := isJsWhitespace) (l := l)).symm
  rw [hd]
  exact List.mem_append_right _ h

lemma mem_of_mem_trimEnd {l : List Char} {a : Char}
    (h : a ∈ trimEnd l) : a ∈ l := by
  obtain ⟨r, hr⟩ := trimEnd_append_exists l
  rw [hr]
  exact List.mem_append_left _ h

lemma mem_of_mem_jsTrim {l : List Char} {a : Char}
    (h : a ∈ jsTrim l) : a ∈ l :=
  mem_of_mem_trimStart (mem_of_mem_trimEnd h)

lemma length_jsTrim_le (l : List Char) : (jsTrim l).length ≤ l.length := by
  obtain ⟨r, hr⟩ := trimEnd_append_exists (trimStart l)
  have h1 : (jsTrim l).length ≤ (trimStart l).length := by
    rw [jsTrim]
    conv_rhs => rw [hr]
    rw [List.length_append]
    omega
  have h2 : (trimStart l).length ≤ l.length := by
    conv_rhs => rw [← List.takeWhile_append_dropWhile (p := isJsWhitespace) (l := l)]
    rw [List.length_append]
    exact Nat.le_add_left _ _
  exact Nat.le_trans h1 h2

lemma blockCond_eq_false {sc : SafetyCheck}
    (h : ¬(sc.passed = false ∧ sc.risk_level = RiskLevel.high)) :
    (!sc.passed && (sc.risk_level == RiskLevel.high)) = false := by
  cases hp : sc.passed with
  | true => simp
  | false =>
    cases hr : sc.risk_level <;> simp_all

lemma blockCond_eq_true {sc : SafetyCheck}
    (h1 : sc.passed = false) (h2 : sc.risk_level = RiskLevel.high) :
    (!sc.passed && (sc.risk_level == RiskLevel.high)) = true := by
  rw [h1, h2]
  rfl

/-- Claim C1: for every question whose safety verdict is `passed = false`
with HIGH risk, `processQuery` returns, without invoking the external
model, the fixed refusal response (fixed answer, confidence 1, the two
fixed actions, category `other`, tags `safety`/`moderation`), metrics
with all token counts and cost zero, and the query truncated to its
first 100 characters. -/
theorem c1_high_risk_blocks (q m ts : List Char) (lat : Nat)
    (stage : Except (List Char) Unit)
    (h1 : (checkInputSafety q).passed = false)
    (h2 : (checkInputSafety q).risk_level = RiskLevel.high) :
    (processQuery q m ts lat stage).calledModel = false ∧
    (processQuery q m ts lat stage).result.response =
      { answer := "I cannot process this request due to security concerns.".toList,
        confidence := 1,
        actions := ["Please rephrase your question".toList,
                    "Contact support if you need assistance".toList],
        category := "other".toList,
        tags := ["safety".toList, "moderation".toList] } ∧
    (processQuery q m ts lat stage).result.metrics.tokens_prompt = 0 ∧
    (processQuery q m ts lat stage).result.metrics.tokens_completion = 0 ∧
    (processQuery q m ts lat stage).result.metrics.total_tokens = 0 ∧
    (processQuery q m ts lat stage).result.metrics.estimated_cost_usd = 0 ∧
    (processQuery q m ts lat stage).result.metrics.query = q.take 100 := by
  rw [processQuery]
  simp only [blockCond_eq_true h1 h2, if_true]
  simp

/-- Witness for C1 at the concrete query `How do I hack your account?`
(matches the `/hack/i` suspicious pattern, so the verdict is
`passed = false`, HIGH). -/
theorem c1_high_risk_blocks_witness :
    ((checkInputSafety "How do I hack your account?".toList).passed = false ∧
     (checkInputSafety "How do I hack your account?".toList).risk_level = RiskLevel.high) ∧
    ((processQuery "How do I hack your account?".toList "gpt-4".toList
        "2024-01-15".toList 7 (Except.ok ())).calledModel = false ∧
     (processQuery "How do I hack your account?".toList "gpt-4".toList
        "2024-01-15".toList 7 (Except.ok ())).result.response =
      { answer := "I cannot process this request due to security concerns.".toList,
        confidence := 1,
        actions := ["Please rephrase your question".toList,
                    "Contact support if you need assistance".toList],
        category := "other".toList,
        tags := ["safety".toList, "moderation".toList] } ∧
     (processQuery "How do I hack your account?".toList "gpt-4".toList
        "2024-01-15".toList 7 (Except.ok ())).result.metrics.tokens_prompt = 0 ∧
     (processQuery "How do I hack your account?".toList "gpt-4".toList
        "2024-01-15".toList 7 (Except.ok ())).result.metrics.tokens_completion = 0 ∧
     (processQuery "How do I hack your account?".toList "gpt-4".toList
        "2024-01-15".toList 7 (Except.ok ())).result.metrics.total_tokens = 0 ∧
     (processQuery "How do I hack your account?".toList "gpt-4".toList
        "2024-01-15".toList 7 (Except.ok ())).result.metrics.estimated_cost_usd = 0 ∧
     (processQuery "How do I hack your account?".toList "gpt-4".toList
        "2024-01-15".toList 7 (Except.ok ())).result.metrics.query =
       "How do I hack your account?".toList.take 100) :=
  ⟨⟨by decide, by decide⟩,
   c1_high_risk_blocks "How do I hack your account?".toList "gpt-4".toList
     "2024-01-15".toList 7 (Except.ok ()) (by decide) (by decide)⟩

/-- Claim C4: for every question that is not blocked by the safety gate
and whose processing stage inside the `try` block fails with message
`msg`, `processQuery` catches the error and returns (it never throws)
the degraded response embedding the failure message, confidence 0,
category `other`, tags `error`, zeroed token and cost metrics, and the
sanitized query truncated to 200 characters. -/
theorem c4_error_path (q m ts msg : List Char) (lat : Nat)
    (h : ¬((checkInputSafety q).passed = false ∧
           (checkInputSafety q).risk_level = RiskLevel.high)) :
    (processQuery q m ts lat (Except.error msg)).calledModel = false ∧
    (processQuery q m ts lat (Except.error msg)).result.response =
      { answer := "I encountered an error processing your question: ".toList ++ msg,
        confidence := 0,
        actions := ["Please try rephrasing your question".toList,
                    "Contact support if the issue persists".toList],
        category := "other".toList,
        tags := ["error".toList] } ∧
    (processQuery q m ts lat (Except.error msg)).result.metrics.tokens_prompt = 0 ∧
    (processQuery q m ts lat (Except.error msg)).result.metrics.tokens_completion = 0 ∧
    (processQuery q m ts lat (Except.error msg)).result.metrics.total_tokens = 0 ∧
    (processQuery q m ts lat (Except.error msg)).result.metrics.estimated_cost_usd = 0 ∧
    (processQuery q m ts lat (Except.error msg)).result.metrics.query =
      (sanitizeQuery q).take 200 := by
  rw [processQuery]
  simp only [blockCond_eq_false h, if_false, Bool.false_eq_true]
  simp

/-- Witness for C4 at the concrete safe query
`How do I reset my password?` with stage failure message
`Either OPENROUTER_API_KEY or OPENAI_API_KEY must be set`. -/
theorem c4_error_path_witness :
    (¬((checkInputSafety "How do I reset my password?".toList).passed = false ∧
       (checkInputSafety "How do I reset my password?".toList).risk_level = RiskLevel.high)) ∧
    ((processQuery "How do I reset my password?".toList "gpt-4".toList "t".toList 3
        (Except.error "Either OPENROUTER_API_KEY or OPENAI_API_KEY must be set".toList)).calledModel = false ∧
     (processQuery "How do I reset my password?".toList "gpt-4".toList "t".toList 3
        (Except.error "Either OPENROUTER_API_KEY or OPENAI_API_KEY must be set".toList)).result.response =
      { answer := "I encountered an error processing your question: ".toList ++
          "Either OPENROUTER_API_KEY or OPENAI_API_KEY must be set".toList,
        confidence := 0,
        actions := ["Please try rephrasing your question".toList,
                    "Contact support if the issue persists".toList],
        category := "other".toList,
        tags := ["error".toList] } ∧
     (processQuery "How do I reset my password?".toList "gpt-4".toList "t".toList 3
        (Except.error "Either OPENROUTER_API_KEY or OPENAI_API_KEY must be set".toList)).result.metrics.tokens_prompt = 0 ∧
     (processQuery "How do I reset my password?".toList "gpt-4".toList "t".toList 3
        (Except.error "Either OPENROUTER_API_KEY or OPENAI_API_KEY must be set".toList)).result.metrics.tokens_completion = 0 ∧
     (processQuery "How do I reset my password?".toList "gpt-4".toList "t".toList 3
        (Except.error "Either OPENROUTER_API_KEY or OPENAI_API_KEY must be set".toList)).result.metrics.total_tokens = 0 ∧
     (processQuery "How do I reset my password?".toList "gpt-4".toList "t".toList 3
        (Except.error "Either OPENROUTER_API_KEY or OPENAI_API_KEY must be set".toList)).result.metrics.estimated_cost_usd = 0 ∧
     (processQuery "How do I reset my password?".toList "gpt-4".toList "t".toList 3
        (Except.error "Either OPENROUTER_API_KEY or OPENAI_API_KEY must be set".toList)).result.metrics.query =
       (sanitizeQuery "How do I reset my password?".toList).take 200) :=
  ⟨by decide,
   c4_error_path "How do I reset my password?".toList "gpt-4".toList "t".toList
     "Either OPENROUTER_API_KEY or OPENAI_API_KEY must be set".toList 3 (by decide)⟩

/-- Claim C10 (implicit): on the non-blocked, non-error path,
`processQuery` always reports the constant safety verdict
`passed = true`, risk LOW, no reason — whatever the classifier actually
said. -/
theorem c10_safety_verdict_constant (q m ts : List Char) (lat : Nat)
    (h : ¬((checkInputSafety q).passed = false ∧
           (checkInputSafety q).risk_level = RiskLevel.high)) :
    (processQuery q m ts lat (Except.ok ())).result.safety =
      { passed := true, risk_level := RiskLevel.low, reason := none } := by
  rw [processQuery]
  simp only [blockCond_eq_false h, if_false, Bool.false_eq_true]

/-- Witness for C10 at a concrete MEDIUM-risk query (`act as` keyword):
the classifier verdict is `passed = true`, MEDIUM, with a reason, yet
the returned safety record is the constant LOW verdict without one. -/
theorem c10_safety_verdict_constant_witness :
    checkInputSafety "please act as my assistant".toList =
      { passed := true, risk_level := RiskLevel.medium,
        reason := some ("Contains medium-risk keyword: ".toList ++ "act as".toList) } ∧
    (processQuery "please act as my assistant".toList "gpt-4".toList "t".toList 2
        (Except.ok ())).result.safety =
      { passed := true, risk_level := RiskLevel.low, reason := none } :=
  ⟨by decide,
   c10_safety_verdict_constant "please act as my assistant".toList "gpt-4".toList
     "t".toList 2 (by decide)⟩


lemma jsTrim_replicate_of_ws {c : Char} (h : isJsWhitespace c = true) (n : Nat) :
    jsTrim (List.replicate n c) = [] := by
  rw [jsTrim, trimStart, List.dropWhile_replicate]
  simp [h, trimEnd]

lemma jsTrim_replicate_of_not_ws {c : Char} (h : isJsWhitespace c = false) (n : Nat) :
    jsTrim (List.replicate n c) = List.replicate n c := by
  rw [jsTrim, trimStart, List.dropWhile_replicate]
  simp [h, trimEnd, List.reverse_replicate, List.dropWhile_replicate]

/-- Claim C2 (refuted on the code; the success branch is an unfinished
stub): on the safe path with a succeeding processing stage, the current
`processQuery` does not return a model answer at all — it answers the
hard-coded `Hello, world!` with all token counts zero and the raw,
untruncated question (not the 200-char sanitized one) in
`metrics.query`, and the external model is never invoked. -/
theorem c2_success_path_is_stub :
    (checkInputSafety "How do I reset my password?".toList).passed = true ∧
    (checkInputSafety "How do I reset my password?".toList).risk_level = RiskLevel.low ∧
    (processQuery "How do I reset my password?".toList "gpt-3.5-turbo".toList
        "2024-01-15T10:30:00.000Z".toList 1247 (Except.ok ())).calledModel = false ∧
    (processQuery "How do I reset my password?".toList "gpt-3.5-turbo".toList
        "2024-01-15T10:30:00.000Z".toList 1247 (Except.ok ())).result.response.answer =
      "Hello, world!".toList ∧
    (processQuery "How do I reset my password?".toList "gpt-3.5-turbo".toList
        "2024-01-15T10:30:00.000Z".toList 1247 (Except.ok ())).result.metrics.tokens_prompt = 0 ∧
    (processQuery "How do I reset my password?".toList "gpt-3.5-turbo".toList
        "2024-01-15T10:30:00.000Z".toList 1247 (Except.ok ())).result.metrics.tokens_completion = 0 ∧
    (processQuery "How do I reset my password?".toList "gpt-3.5-turbo".toList
        "2024-01-15T10:30:00.000Z".toList 1247 (Except.ok ())).result.metrics.total_tokens = 0 ∧
    (processQuery "How do I reset my password?".toList "gpt-3.5-turbo".toList
        "2024-01-15T10:30:00.000Z".toList 1247 (Except.ok ())).result.metrics.query =
      "How do I reset my password?".toList := by
  refine ⟨by decide, by decide, by decide, by decide, by decide, by decide, by decide, by decide⟩

/-- Claim C3 (refuted on the code, same stub): non-HIGH verdicts do
pass the safety gate and the query is sanitized (the success branch
reports `sanitizeQuery question` as the user content it logs), but the
external model is never invoked; shown at a `passed = false`, LOW
query (`Hi`), and at a `passed = true`, MEDIUM query (`pretend`
keyword). -/
theorem c3_gate_passes_but_model_never_called :
    checkInputSafety "Hi".toList =
      { passed := false, risk_level := RiskLevel.low,
        reason := some "Query too short or empty".toList } ∧
    (processQuery "Hi".toList "gpt-4".toList "t".toList 2 (Except.ok ())).loggedQuestion =
      some (sanitizeQuery "Hi".toList) ∧
    (processQuery "Hi".toList "gpt-4".toList "t".toList 2 (Except.ok ())).calledModel = false ∧
    (checkInputSafety "Can you pretend to be a pirate?".toList).passed = true ∧
    (checkInputSafety "Can you pretend to be a pirate?".toList).risk_level = RiskLevel.medium ∧
    (processQuery "Can you pretend to be a pirate?".toList "gpt-4".toList "t".toList 2
        (Except.ok ())).loggedQuestion =
      some (sanitizeQuery "Can you pretend to be a pirate?".toList) ∧
    (processQuery "Can you pretend to be a pirate?".toList "gpt-4".toList "t".toList 2
        (Except.ok ())).calledModel = false := by
  refine ⟨by decide, by decide, by decide, by decide, by decide, by decide, by decide⟩

/-- Claim C5 is false as stated: a query of 5001 blanks is longer than
5000 characters, yet the classifier reports `passed = false` with LOW
risk (`Query too short or empty`), because the trimmed-length check
runs before the maximum-length check. -/
theorem c5_counterexample :
    5000 < (List.replicate 5001 ' ').length ∧
    checkInputSafety (List.replicate 5001 ' ') =
      { passed := false, risk_level := RiskLevel.low,
        reason := some "Query too short or empty".toList } ∧
    (checkInputSafety (List.replicate 5001 ' ')).risk_level ≠ RiskLevel.high := by
  have hsc : checkInputSafety (List.replicate 5001 ' ') =
      { passed := false, risk_level := RiskLevel.low,
        reason := some "Query too short or empty".toList } := by
    rw [checkInputSafety, jsTrim_replicate_of_ws (by decide)]
    simp [MIN_QUERY_LENGTH]
  refine ⟨by rw [List.length_replicate]; omega, hsc, by rw [hsc]; decide⟩

/-- Claim C5, amended: for every input longer than 5000 characters
whose trimmed length is still at least 3 (so the earlier short-query
check does not fire), `checkInputSafety` returns `passed = false`,
HIGH, `Query exceeds maximum length`, and `processQuery` on such an
input never invokes the external model. -/
theorem c5_amended_overlength_is_high (q m ts : List Char) (lat : Nat)
    (stage : Except (List Char) Unit)
    (hlen : 5000 < q.length)
    (htrim : MIN_QUERY_LENGTH ≤ (jsTrim q).length) :
    checkInputSafety q =
      { passed := false, risk_level := RiskLevel.high,
        reason := some "Query exceeds maximum length".toList } ∧
    (processQuery q m ts lat stage).calledModel = false := by
  have hne : q.isEmpty = false := by
    cases q with
    | nil => simp at hlen
    | cons a t => rfl
  have hsc : checkInputSafety q =
      { passed := false, risk_level := RiskLevel.high,
        reason := some "Query exceeds maximum length".toList } := by
    rw [checkInputSafety]
    rw [if_neg, if_pos]
    · show MAX_QUERY_LENGTH < q.length
      rw [MAX_QUERY_LENGTH]
      exact hlen
    · simp only [hne, Bool.false_or, decide_eq_true_eq, Bool.or_eq_true]
      omega
  refine ⟨hsc, ?_⟩
  rw [processQuery]
  simp only [@blockCond_eq_true (checkInputSafety q) (by rw [hsc]) (by rw [hsc]), if_true]

/-- Witness for the amended C5 at 5001 letters `a`. -/
theorem c5_amended_overlength_is_high_witness :
    (5000 < (List.replicate 5001 'a').length ∧
     MIN_QUERY_LENGTH ≤ (jsTrim (List.replicate 5001 'a')).length) ∧
    (checkInputSafety (List.replicate 5001 'a') =
      { passed := false, risk_level := RiskLevel.high,
        reason := some "Query exceeds maximum length".toList } ∧
     (processQuery (List.replicate 5001 'a') "gpt-4".toList "t".toList 1
        (Except.ok ())).calledModel = false) :=
  ⟨⟨by rw [List.length_replicate]; omega,
    by rw [jsTrim_replicate_of_not_ws (by decide), List.length_replicate, MIN_QUERY_LENGTH]; omega⟩,
   c5_amended_overlength_is_high (List.replicate 5001 'a') "gpt-4".toList "t".toList 1
     (Except.ok ()) (by rw [List.length_replicate]; omega)
     (by rw [jsTrim_replicate_of_not_ws (by decide), List.length_replicate, MIN_QUERY_LENGTH]; omega)⟩

lemma head?_replicate_append {c : Char} {n : Nat} (hn : n ≠ 0) (l : List Char) :
    (List.replicate n c ++ l).head? = some c := by
  rw [List.head?_append, List.head?_replicate]
  simp [hn]

lemma sanitizeQuery_cex_step1 :
    sanitizeQuery (List.replicate 4999 'a' ++ " b".toList) =
      List.replicate 4999 'a' ++ " ".toList := by
  have hrc : removeControlChars (List.replicate 4999 'a' ++ " b".toList) =
      List.replicate 4999 'a' ++ " b".toList := by
    rw [removeControlChars, List.filter_append, List.filter_replicate_of_pos (by decide)]
    congr 1
  have htr : jsTrim (List.replicate 4999 'a' ++ " b".toList) =
      List.replicate 4999 'a' ++ " b".toList := by
    apply jsTrim_eq_self
    · intro c hc
      rw [head?_replicate_append (by omega)] at hc
      cases hc
      decide
    · intro c hc
      rw [List.getLast?_append] at hc
      rw [show (" b".toList.getLast?.or (List.replicate 4999 'a').getLast?) =
            some 'b' from by rw [show " b".toList.getLast? = some 'b' from by decide]; rfl] at hc
      cases hc
      decide
  rw [sanitizeQuery, hrc, htr, List.take_append_eq_append_take,
    List.take_of_length_le (by rw [List.length_replicate, MAX_QUERY_LENGTH]; omega),
    List.length_replicate]
  congr 1

lemma sanitizeQuery_cex_step2 :
    sanitizeQuery (List.replicate 4999 'a' ++ " ".toList) = List.replicate 4999 'a' := by
  have hrc : removeControlChars (List.replicate 4999 'a' ++ " ".toList) =
      List.replicate 4999 'a' ++ " ".toList := by
    rw [removeControlChars, List.filter_append, List.filter_replicate_of_pos (by decide)]
    congr 1
  have htr : jsTrim (List.replicate 4999 'a' ++ " ".toList) = List.replicate 4999 'a' := by
    rw [jsTrim, trimStart,
      dropWhile_eq_self_of_head (head?_replicate_append (by omega) _) (by decide),
      trimEnd, List.reverse_append, List.reverse_replicate]
    rw [show (" ".toList.reverse) = ' ' :: [] from by decide]
    rw [List.cons_append, List.dropWhile_cons_of_pos (by decide), List.nil_append,
      List.dropWhile_replicate, show isJsWhitespace 'a' = false from by decide]
    simp only [Bool.false_eq_true, if_false, List.reverse_replicate]
  rw [sanitizeQuery, hrc, htr,
    List.take_of_length_le (by rw [List.length_replicate, MAX_QUERY_LENGTH]; omega)]

/-- Claim C6 is false as stated: at the 5001-character input of 4999
letters `a` followed by a blank and a `b`, the 5000-character cut ends
the sanitized text in a blank, which a second sanitization pass trims
away, so `sanitizeQuery` is not idempotent on it. -/
theorem c6_counterexample :
    sanitizeQuery (sanitizeQuery (List.replicate 4999 'a' ++ " b".toList)) ≠
      sanitizeQuery (List.replicate 4999 'a' ++ " b".toList) := by
  rw [sanitizeQuery_cex_step1, sanitizeQuery_cex_step2]
  intro h
  have hlen := congrArg List.length h
  rw [List.length_replicate, List.length_append, List.length_replicate] at hlen
  simp at hlen

/-- Claim C6, amended: `sanitizeQuery` is idempotent on every input
whose control-stripped, trimmed text fits within the 5000-character
limit (in particular on every input of length at most 5000); only when
the final truncation cuts the text — and can thereby expose trailing
whitespace — can a second pass differ. -/
theorem c6_sanitize_idempotent (x : List Char)
    (h : (jsTrim (removeControlChars x)).length ≤ MAX_QUERY_LENGTH) :
    sanitizeQuery (sanitizeQuery x) = sanitizeQuery x := by
  have hx : sanitizeQuery x = jsTrim (removeControlChars x) := by
    rw [sanitizeQuery, List.take_of_length_le h]
  rw [hx]
  have hstrip : removeControlChars (jsTrim (removeControlChars x)) =
      jsTrim (removeControlChars x) := by
    rw [removeControlChars]
    rw [List.filter_eq_self]
    intro a ha
    have hmem : a ∈ removeControlChars x := mem_of_mem_jsTrim ha
    rw [removeControlChars] at hmem
    exact (List.mem_filter.mp hmem).2
  rw [sanitizeQuery, hstrip, jsTrim_idem]
  exact List.take_of_length_le h

/-- Witness for the amended C6 at a short input containing control
characters and surrounding whitespace. -/
theorem c6_sanitize_idempotent_witness :
    (jsTrim (removeControlChars "  Test\x00\x01query  ".toList)).length ≤ MAX_QUERY_LENGTH ∧
    sanitizeQuery (sanitizeQuery "  Test\x00\x01query  ".toList) =
      sanitizeQuery "  Test\x00\x01query  ".toList :=
  ⟨by decide, c6_sanitize_idempotent "  Test\x00\x01query  ".toList (by decide)⟩

lemma pricing_find_mistral :
    pricing.find? (fun e => listIncludes e.1 "mistral-7b".toList) = none := by
  rw [pricing]
  rw [List.find?_cons_of_neg _ (by decide), List.find?_cons_of_neg _ (by decide),
    List.find?_cons_of_neg _ (by decide), List.find?_cons_of_neg _ (by decide),
    List.find?_cons_of_neg _ (by decide), List.find?_cons_of_neg _ (by decide)]
  rfl

/-- Claim C7: `calculateCost` equals
`(prompt/1e6) * prompt_rate + (completion/1e6) * completion_rate` where
the rates come from the first table key, in declaration order, that is
a substring of the model identifier, falling back to the
`gpt-3.5-turbo` rates; zero tokens cost 0 for every model,
`gpt-4` at (1000, 500) costs exactly 0.06, and `gpt-4-turbo` is priced
with the `gpt-4` rates (its own later entry is never reached — 0.06
rather than the 0.025 its own rates would give). -/
theorem c7_calculateCost_spec :
    (∀ model : List Char, calculateCost model 0 0 = 0) ∧
    calculateCost "gpt-4".toList 1000 500 = 3/50 ∧
    calculateCost "gpt-4-turbo".toList 1000 500 = 3/50 ∧
    (1000 : ℚ)/1000000 * 10 + (500 : ℚ)/1000000 * 30 ≠ 3/50 ∧
    (∀ (model : List Char) (p c : Nat) (ent : List Char × ℚ × ℚ),
      pricing.find? (fun e => listIncludes e.1 model) = some ent →
      calculateCost model p c =
        (p : ℚ)/1000000 * ent.2.1 + (c : ℚ)/1000000 * ent.2.2) ∧
    (∀ (model : List Char) (p c : Nat),
      pricing.find? (fun e => listIncludes e.1 model) = none →
      calculateCost model p c =
        (p : ℚ)/1000000 * (1/2) + (c : ℚ)/1000000 * (3/2)) := by
  refine ⟨?_, ?_, ?_, by norm_num, ?_, ?_⟩
  · intro model
    rw [calculateCost]
    cases h : pricing.find? (fun e => listIncludes e.1 model) with
    | none => simp
    | some ent => simp
  · rw [calculateCost, pricing_find_gpt4]
    norm_num
  · rw [calculateCost, pricing_find_gpt4_turbo]
    norm_num
  · intro model p c ent h
    rw [calculateCost, h]
  · intro model p c h
    rw [calculateCost, h]

/-- Witness for C7: the zero-token clause at `claude-3-haiku` and the
fallback clause at the unknown model `mistral-7b`. -/
theorem c7_calculateCost_spec_witness :
    calculateCost "claude-3-haiku".toList 0 0 = 0 ∧
    calculateCost "mistral-7b".toList 1000 500 =
      (1000 : ℚ)/1000000 * (1/2) + (500 : ℚ)/1000000 * (3/2) :=
  ⟨c7_calculateCost_spec.1 "claude-3-haiku".toList,
   c7_calculateCost_spec.2.2.2.2.2 "mistral-7b".toList 1000 500 pricing_find_mistral⟩

lemma isPrefixOf_append_self (l r : List Char) : l.isPrefixOf (l ++ r) = true := by
  induction l with
  | nil => simp
  | cons a as ih =>
    rw [List.cons_append, List.isPrefixOf_cons₂]
    simp [ih]

lemma isPrefixOf_cons_of_neq {a b : Char} (as bs : List Char) (h : (a == b) = false) :
    (a :: as).isPrefixOf (b :: bs) = false := by
  rw [List.isPrefixOf_cons₂, h, Bool.false_and]

/-- Claim C8: for every serialized structured answer — a text that
starts with the opening brace and ends with the closing brace of the
serialized object — `parseJSONResponse` on the payload wrapped in a
`json`-tagged fenced code block yields the identical result as on the
bare payload, for every underlying `JSON.parse`. -/
theorem c8_fence_roundtrip
    (jsonParse : List Char → Except (List Char) SupportResponse) (t : List Char)
    (h1 : t.head? = some (Char.ofNat 123))
    (h2 : t.getLast? = some (Char.ofNat 125)) :
    parseJSONResponse jsonParse (wrapJsonFence t) = parseJSONResponse jsonParse t := by
  obtain ⟨t', rfl⟩ : ∃ r, t = Char.ofNat 123 :: r := by
    cases t with
    | nil => simp at h1
    | cons a r =>
      simp only [List.head?_cons, Option.some.injEq] at h1
      exact ⟨r, by rw [h1]⟩
  have hassoc : wrapJsonFence (Char.ofNat 123 :: t') =
      jsonFence ++ (Char.ofNat 10 ::
        ((Char.ofNat 123 :: t') ++ (Char.ofNat 10 :: fence))) := by
    rw [wrapJsonFence]
    simp [List.append_assoc]
  have hw1 : (wrapJsonFence (Char.ofNat 123 :: t')).head? = some backquote := by
    rw [hassoc, jsonFence]
    rfl
  have hw2 : (wrapJsonFence (Char.ofNat 123 :: t')).getLast? = some backquote := by
    rw [wrapJsonFence, List.getLast?_append,
      show fence.getLast? = some backquote from by decide]
    rfl
  have hL1 : jsTrim (wrapJsonFence (Char.ofNat 123 :: t')) =
      wrapJsonFence (Char.ofNat 123 :: t') := by
    apply jsTrim_eq_self
    · intro c hc
      rw [hw1] at hc
      cases hc
      decide
    · intro c hc
      rw [hw2] at hc
      cases hc
      decide
  have hc1 : jsonFence.isPrefixOf (wrapJsonFence (Char.ofNat 123 :: t')) = true := by
    rw [hassoc]
    exact isPrefixOf_append_self _ _
  have hRt : jsTrim (Char.ofNat 123 :: t') = Char.ofNat 123 :: t' := by
    apply jsTrim_eq_self
    · intro c hc
      rw [List.head?_cons] at hc
      cases hc
      decide
    · intro c hc
      rw [h2] at hc
      cases hc
      decide
  have hr1 : jsonFence.isPrefixOf (Char.ofNat 123 :: t') = false := by
    rw [jsonFence]
    exact isPrefixOf_cons_of_neq _ _ (by decide)
  have hr2 : fence.isPrefixOf (Char.ofNat 123 :: t') = false := by
    rw [fence]
    exact isPrefixOf_cons_of_neq _ _ (by decide)
  have hdrop : (wrapJsonFence (Char.ofNat 123 :: t')).drop 7 =
      Char.ofNat 10 :: ((Char.ofNat 123 :: t') ++ (Char.ofNat 10 :: fence)) := by
    rw [hassoc]
    exact List.drop_left' (by decide)
  have hts : trimStart (Char.ofNat 10 ::
      ((Char.ofNat 123 :: t') ++ (Char.ofNat 10 :: fence))) =
      (Char.ofNat 123 :: t') ++ (Char.ofNat 10 :: fence) := by
    rw [trimStart, List.dropWhile_cons_of_pos (by decide), List.cons_append,
      List.dropWhile_cons_of_neg (by decide)]
  have hsfx : fence.isSuffixOf ((Char.ofNat 123 :: t') ++ (Char.ofNat 10 :: fence)) = true := by
    rw [List.isSuffixOf, List.reverse_append,
      show (Char.ofNat 10 :: fence).reverse = fence ++ [Char.ofNat 10] from by decide,
      List.append_assoc, show fence.reverse = fence from by decide]
    exact isPrefixOf_append_self _ _
  have hlen : ((Char.ofNat 123 :: t') ++ (Char.ofNat 10 :: fence)).length - 3 =
      t'.length + 2 := by
    simp [List.length_append, fence]
  have htake : ((Char.ofNat 123 :: t') ++ (Char.ofNat 10 :: fence)).take (t'.length + 2) =
      (Char.ofNat 123 :: t') ++ [Char.ofNat 10] := by
    rw [List.take_append_eq_append_take,
      List.take_of_length_le (by simp),
      show t'.length + 2 - (Char.ofNat 123 :: t').length = 1 from by simp]
    rfl
  have hte : trimEnd ((Char.ofNat 123 :: t') ++ [Char.ofNat 10]) = Char.ofNat 123 :: t' := by
    rw [trimEnd, List.reverse_append,
      show ([Char.ofNat 10] : List Char).reverse = [Char.ofNat 10] from rfl,
      List.cons_append, List.nil_append, List.dropWhile_cons_of_pos (by decide),
      dropWhile_eq_self_of_head (by rw [List.head?_reverse]; exact h2) (by decide),
      List.reverse_reverse]
  have hAll : stripTrailingFence (trimStart ((wrapJsonFence (Char.ofNat 123 :: t')).drop 7)) =
      Char.ofNat 123 :: t' := by
    rw [hdrop, hts, stripTrailingFence, if_pos hsfx, hlen, htake, hte]
  simp only [parseJSONResponse]
  rw [hL1, hRt, hc1, hr1, hr2, hAll]
  simp

/-- Witness for C8 at the serialized object text with a single field,
with a concrete (constantly failing) `JSON.parse`. -/
theorem c8_fence_roundtrip_witness :
    ((Char.ofNat 123 :: ("\"answer\":\"ok\"".toList ++ [Char.ofNat 125])).head? =
      some (Char.ofNat 123) ∧
     (Char.ofNat 123 :: ("\"answer\":\"ok\"".toList ++ [Char.ofNat 125])).getLast? =
      some (Char.ofNat 125)) ∧
    parseJSONResponse (fun s => Except.error s)
        (wrapJsonFence (Char.ofNat 123 :: ("\"answer\":\"ok\"".toList ++ [Char.ofNat 125]))) =
      parseJSONResponse (fun s => Except.error s)
        (Char.ofNat 123 :: ("\"answer\":\"ok\"".toList ++ [Char.ofNat 125])) :=
  ⟨⟨by decide, by decide⟩,
   c8_fence_roundtrip (fun s => Except.error s)
     (Char.ofNat 123 :: ("\"answer\":\"ok\"".toList ++ [Char.ofNat 125]))
     (by decide) (by decide)⟩

/-- Claim C9: `validateResponse` rejects with the error naming the
first violated field, in the fixed order answer, confidence, actions,
category, tags (a field check only runs when every earlier one
passed), and when all five checks pass it raises nothing and returns
the candidate unmodified. -/
theorem c9_validateResponse_order (r : Candidate) :
    ((truthy r.answer && isJsString r.answer) = false →
      validateResponse r = Except.error "Missing or invalid answer field".toList) ∧
    ((truthy r.answer && isJsString r.answer) = true →
     confidenceInvalid r.confidence = true →
      validateResponse r =
        Except.error "Confidence must be a number between 0 and 1".toList) ∧
    ((truthy r.answer && isJsString r.answer) = true →
     confidenceInvalid r.confidence = false →
     isJsArray r.actions = false →
      validateResponse r = Except.error "Actions must be an array".toList) ∧
    ((truthy r.answer && isJsString r.answer) = true →
     confidenceInvalid r.confidence = false →
     isJsArray r.actions = true →
     (truthy r.category && isJsString r.category) = false →
      validateResponse r = Except.error "Missing or invalid category field".toList) ∧
    ((truthy r.answer && isJsString r.answer) = true →
     confidenceInvalid r.confidence = false →
     isJsArray r.actions = true →
     (truthy r.category && isJsString r.category) = true →
     isJsArray r.tags = false →
      validateResponse r = Except.error "Tags must be an array".toList) ∧
    ((truthy r.answer && isJsString r.answer) = true →
     confidenceInvalid r.confidence = false →
     isJsArray r.actions = true →
     (truthy r.category && isJsString r.category) = true →
     isJsArray r.tags = true →
      validateResponse r = Except.ok r) := by
  refine ⟨?_, ?_, ?_, ?_, ?_, ?_⟩
  · intro h1
    rw [Bool.and_eq_false_iff] at h1
    rcases h1 with h1 | h1 <;> simp [validateResponse, h1]
  · intro h1 h2
    rw [Bool.and_eq_true] at h1
    simp [validateResponse, h1.1, h1.2, h2]
  · intro h1 h2 h3
    rw [Bool.and_eq_true] at h1
    simp [validateResponse, h1.1, h1.2, h2, h3]
  · intro h1 h2 h3 h4
    rw [Bool.and_eq_true] at h1
    rw [Bool.and_eq_false_iff] at h4
    rcases h4 with h4 | h4 <;> simp [validateResponse, h1.1, h1.2, h2, h3, h4]
  · intro h1 h2 h3 h4 h5
    rw [Bool.and_eq_true] at h1
    rw [Bool.and_eq_true] at h4
    simp [validateResponse, h1.1, h1.2, h2, h3, h4.1, h4.2, h5]
  · intro h1 h2 h3 h4 h5
    rw [Bool.and_eq_true] at h1
    rw [Bool.and_eq_true] at h4
    simp [validateResponse, h1.1, h1.2, h2, h3, h4.1, h4.2, h5]

/-- Witness for C9 at the all-`undefined` candidate: the `answer`
check fires first. -/
theorem c9_validateResponse_order_witness :
    (truthy (Candidate.mk JsValue.undef JsValue.undef JsValue.undef JsValue.undef
        JsValue.undef).answer &&
      isJsString (Candidate.mk JsValue.undef JsValue.undef JsValue.undef JsValue.undef
        JsValue.undef).answer) = false ∧
    validateResponse (Candidate.mk JsValue.undef JsValue.undef JsValue.undef JsValue.undef
        JsValue.undef) =
      Except.error "Missing or invalid answer field".toList :=
  ⟨by decide,
   (c9_validateResponse_order (Candidate.mk JsValue.undef JsValue.undef JsValue.undef
      JsValue.undef JsValue.undef)).1 (by decide)⟩

end SupportHelper
